import Mathlib

/-!
Verification of the binance-trading-bot signal scorer, backtest simulator
and metrics calculator against the repository source.

Embedded directly from the source under src/:
  - `calculate_position_size`, `safe_divide`  (src/utils_module.py)
  - the SIGNAL_CONFIG / BACKTEST_CONFIG constants (src/config_module.py)
  - the label/confidence computation of `predict_with_ml` (src/ml_engine.py)

The scoring, simulation and metrics algorithms live in modules
(signals.py, backtest.py) that are not part of the inspected source; for
those, definitions are modelled from the spec and marked as such in their
doc comments.

All prices and balances are modelled as rationals (the Python floats are
used here only on exact decimal arithmetic).
-/

namespace TradingBot

/-- Trade direction, as in the spec data model. -/
inductive Direction where
  | LONG
  | SHORT
deriving DecidableEq, Repr

/-- Exit reasons of a closed trade, as listed in the spec data model. -/
inductive ExitReason where
  | STOP_LOSS
  | TAKE_PROFIT_1
  | TAKE_PROFIT_2
  | TAKE_PROFIT_3
  | TRAILING_STOP
  | END_OF_DATA
deriving DecidableEq, Repr

/-- Lifecycle phase of an open position:
FLAT and CLOSED are represented by the absence of an open trade. -/
inductive TradePhase where
  | OPEN
  | PARTIAL_TP1
  | PARTIAL_TP2
deriving DecidableEq, Repr

/-- One price bar; only the fields the simulator consumes. -/
structure Bar where
  high : ℚ
  low : ℚ
  close : ℚ
deriving DecidableEq, Repr

/-- A directional signal with its price levels (spec data model). -/
structure Signal where
  direction : Direction
  entry : ℚ
  sl : ℚ
  tp1 : ℚ
  tp2 : ℚ
  tp3 : ℚ
deriving DecidableEq, Repr

/-- A closed trade record (spec data model); `exitPrice` is the
size-weighted average across partial exits. -/
structure Trade where
  direction : Direction
  entryIndex : ℕ
  exitIndex : ℕ
  entryPrice : ℚ
  exitPrice : ℚ
  size : ℚ
  pnl : ℚ
  exitReason : ExitReason
deriving DecidableEq, Repr

/- ------------------------------------------------------------------
Constants embedded from src/config_module.py.
------------------------------------------------------------------ -/

/-- SIGNAL_CONFIG atr_multiplier_sl = 2.5 (src/config_module.py). -/
def atr_multiplier_sl : ℚ := 5 / 2

/-- SIGNAL_CONFIG atr_multiplier_tp1 = 1.5 (src/config_module.py). -/
def atr_multiplier_tp1 : ℚ := 3 / 2

/-- SIGNAL_CONFIG atr_multiplier_tp2 = 3.0 (src/config_module.py). -/
def atr_multiplier_tp2 : ℚ := 3

/-- SIGNAL_CONFIG atr_multiplier_tp3 = 5.0 (src/config_module.py). -/
def atr_multiplier_tp3 : ℚ := 5

/-- SIGNAL_CONFIG min_score_long = 6 (src/config_module.py). -/
def min_score_long : ℤ := 6

/-- SIGNAL_CONFIG min_score_short = -6 (src/config_module.py). -/
def min_score_short : ℤ := -6

/-- SIGNAL_CONFIG min_confidence = 50 (src/config_module.py). -/
def min_confidence : ℚ := 50

/-- SIGNAL_CONFIG max_confidence = 95 (src/config_module.py). -/
def max_confidence : ℚ := 95

/-- BACKTEST_CONFIG initial_balance = 10000 (src/config_module.py). -/
def default_initial_balance : ℚ := 10000

/-- BACKTEST_CONFIG risk_per_trade_pct = 2.0 (src/config_module.py). -/
def default_risk_per_trade_pct : ℚ := 2

/-- BACKTEST_CONFIG min_candles = 200 (src/config_module.py). -/
def default_min_candles : ℕ := 200

/- ------------------------------------------------------------------
Helpers embedded from src/utils_module.py.
------------------------------------------------------------------ -/

/-- Embedded from src/utils_module.py `safe_divide`: returns the default
value on a zero denominator, the quotient otherwise.  The Python default
argument is 0; callers here pass it explicitly. -/
def safe_divide (numerator denominator dflt : ℚ) : ℚ :=
  if denominator = 0 then dflt else numerator / denominator

/-- Embedded from src/utils_module.py `calculate_position_size`:
risk_amount = balance * (risk_pct / 100); risk_distance = |entry - sl|;
returns 0 when risk_distance = 0, else risk_amount / risk_distance. -/
def calculate_position_size (balance risk_pct entry_price sl_price : ℚ) : ℚ :=
  let risk_amount := balance * (risk_pct / 100)
  let risk_distance := |entry_price - sl_price|
  if risk_distance = 0 then 0 else risk_amount / risk_distance

/- ------------------------------------------------------------------
Signal scorer (signals.py is not in the inspected source).
------------------------------------------------------------------ -/

/-- The four price levels a signal carries. -/
structure Levels where
  sl : ℚ
  tp1 : ℚ
  tp2 : ℚ
  tp3 : ℚ
deriving DecidableEq, Repr

/-- Modelled from the spec: price-level formulas of the signal scorer
(signals.py is not in the inspected source).  stopDistance = ATR *
atr_multiplier_sl; sl = entry minus (LONG) or plus (SHORT) stopDistance;
tp_n = entry plus or minus ATR * atr_multiplier_tpN, sign chosen by
direction; multipliers are the SIGNAL_CONFIG
values embedded above from src/config_module.py. -/
def signal_levels (dir : Direction) (entry atr : ℚ) : Levels :=
  match dir with
  | .LONG =>
      ⟨entry - atr * atr_multiplier_sl, entry + atr * atr_multiplier_tp1,
       entry + atr * atr_multiplier_tp2, entry + atr * atr_multiplier_tp3⟩
  | .SHORT =>
      ⟨entry + atr * atr_multiplier_sl, entry - atr * atr_multiplier_tp1,
       entry - atr * atr_multiplier_tp2, entry - atr * atr_multiplier_tp3⟩

/-- Build a full Signal from the scorer's levels. -/
def mkSignal (dir : Direction) (entry atr : ℚ) : Signal :=
  let lv := signal_levels dir entry atr
  ⟨dir, entry, lv.sl, lv.tp1, lv.tp2, lv.tp3⟩

/-- Modelled from the spec: direction selection of the scorer
(signals.py is not in the inspected source).  score >= min_score_long
gives LONG, score <= min_score_short gives SHORT, otherwise no signal. -/
def signal_direction (msl mss score : ℤ) : Option Direction :=
  if msl ≤ score then some .LONG
  else if score ≤ mss then some .SHORT
  else none

/-- Validated scorer threshold configuration. -/
structure ScorerConfig where
  msl : ℤ
  mss : ℤ
deriving DecidableEq, Repr

/-- Modelled from the spec: scorer construction validates
min_score_long > 0 > min_score_short and fails fast (here: returns none)
otherwise, before any bar is processed (signals.py is not in the
inspected source). -/
def mkScorer (msl mss : ℤ) : Option ScorerConfig :=
  if 0 < msl ∧ mss < 0 then some ⟨msl, mss⟩ else none

/-- Clamp x into the closed interval [lo, hi]. -/
def clampQ (lo hi x : ℚ) : ℚ := min hi (max lo x)

/-- Modelled from the spec: the confidence mapping of the scorer
(signals.py is not in the inspected source) — a monotone function of
the absolute score and of the category-agreement fraction, clamped into
[min_confidence, max_confidence]. -/
def confidence_map (minC maxC : ℚ) (absScore : ℕ) (agreement : ℚ) : ℚ :=
  clampQ minC maxC (minC + 5 * (absScore : ℚ) + 20 * agreement)

/- ------------------------------------------------------------------
ML prediction, embedded from src/ml_engine.py `predict_with_ml`.
------------------------------------------------------------------ -/

/-- Embedded from src/ml_engine.py `predict_with_ml`: the returned label
is BULLISH exactly when the predicted class is 1, BEARISH otherwise. -/
def predict_label (cls : ℕ) : String :=
  if cls = 1 then "BULLISH" else "BEARISH"

/-- Embedded from src/ml_engine.py `predict_with_ml`: confidence is
max(probability) * 100 over the two-class probability vector (p0, p1). -/
def predict_confidence (p0 p1 : ℚ) : ℚ :=
  max p0 p1 * 100

/- ------------------------------------------------------------------
Backtest simulator (backtest.py is not in the inspected source).
All definitions of this section are modelled from the spec's state
machine; the position sizing it calls is `calculate_position_size`,
embedded from src/utils_module.py above.
------------------------------------------------------------------ -/

/-- An open position with its running partial-exit bookkeeping.
`stop` is the current (possibly ratcheted) stop price, `trailed` records
whether trailing-stop mode has moved the stop beyond the breakeven
ratchet, `closedFrac` the fraction of the original size already realized,
`weightedExit` the sum over partial exits of fraction * exit price, and
`realized` the pnl realized so far by partial exits. -/
structure OpenTrade where
  direction : Direction
  entryIndex : ℕ
  entryPrice : ℚ
  stop : ℚ
  tp1 : ℚ
  tp2 : ℚ
  tp3 : ℚ
  size : ℚ
  phase : TradePhase
  trailed : Bool
  realized : ℚ
  weightedExit : ℚ
  closedFrac : ℚ
deriving DecidableEq, Repr

/-- Backtest configuration (recognized options of the spec; defaults are
the src/config_module.py values embedded above).  `trail_distance` is the
price distance used by trailing-stop mode. -/
structure BTConfig where
  initial_balance : ℚ
  risk_per_trade_pct : ℚ
  min_candles : ℕ
  use_trailing_stop : Bool
  partialTp : Bool
  trail_distance : ℚ
deriving DecidableEq, Repr

/-- Signed pnl of exiting `size` units entered at `entry` at price
`exitP`, by direction. -/
def pnlOf (dir : Direction) (entry exitP size : ℚ) : ℚ :=
  match dir with
  | .LONG => size * (exitP - entry)
  | .SHORT => size * (entry - exitP)

/-- Whether this bar's range crosses the stop price. -/
def stopHit (dir : Direction) (b : Bar) (stop : ℚ) : Bool :=
  match dir with
  | .LONG => b.low ≤ stop
  | .SHORT => stop ≤ b.high

/-- Whether this bar's range crosses a take-profit price. -/
def tpHit (dir : Direction) (b : Bar) (tp : ℚ) : Bool :=
  match dir with
  | .LONG => tp ≤ b.high
  | .SHORT => b.low ≤ tp

/-- Fraction of the original size still open. -/
def remainingFrac (t : OpenTrade) : ℚ := 1 - t.closedFrac

/-- Ratchet the stop to breakeven (entry price), never loosening it. -/
def breakevenStop (t : OpenTrade) : ℚ :=
  match t.direction with
  | .LONG => max t.stop t.entryPrice
  | .SHORT => min t.stop t.entryPrice

/-- Modelled from the spec: trailing-stop recalculation, applied once
per bar and only in PARTIAL_TP1 or later when the mode is enabled; the
stop is only ever tightened (max for LONG, min for SHORT), never
loosened. -/
def tightenStop (cfg : BTConfig) (b : Bar) (t : OpenTrade) : OpenTrade :=
  if cfg.use_trailing_stop && !(t.phase = TradePhase.OPEN : Bool) then
    match t.direction with
    | .LONG =>
        let s := max t.stop (b.close - cfg.trail_distance)
        { t with stop := s, trailed := t.trailed || decide (t.stop < s) }
    | .SHORT =>
        let s := min t.stop (b.close + cfg.trail_distance)
        { t with stop := s, trailed := t.trailed || decide (s < t.stop) }
  else t

/-- Close the whole remaining fraction of `t` at `price`, producing the
immutable Trade record and the pnl realized by this final exit. -/
def closeTrade (i : ℕ) (t : OpenTrade) (price : ℚ) (reason : ExitReason) :
    Trade × ℚ :=
  let part := pnlOf t.direction t.entryPrice price (t.size * remainingFrac t)
  (⟨t.direction, t.entryIndex, i, t.entryPrice,
    t.weightedExit + remainingFrac t * price, t.size,
    t.realized + part, reason⟩, part)

/-- Realize `frac` of the original size at `price` and move to
`newPhase`, returning the updated open trade and the realized pnl. -/
def partialExit (t : OpenTrade) (price frac : ℚ) (newPhase : TradePhase) :
    OpenTrade × ℚ :=
  let part := pnlOf t.direction t.entryPrice price (t.size * frac)
  ({ t with phase := newPhase, realized := t.realized + part,
            closedFrac := t.closedFrac + frac,
            weightedExit := t.weightedExit + frac * price }, part)

/-- The exit reason when the (possibly trailed) stop is hit. -/
def stopReason (t : OpenTrade) : ExitReason :=
  if t.trailed then .TRAILING_STOP else .STOP_LOSS

/-- Modelled from the spec: one bar of the trade-lifecycle state machine
for an open trade (backtest.py is not in the inspected source).  Stops
are checked before take-profits; with partial take-profits enabled the
split is 30/30/40 across tp1/tp2/tp3, tp1 ratchets the stop to breakeven;
with them disabled a single full-size exit occurs at the stop or tp3
only; the trailing-stop recalculation runs once at the end of the bar
when the trade stays open.  Returns (still-open trade?, closed trade?,
pnl realized this bar). -/
def stepTrade (cfg : BTConfig) (i : ℕ) (b : Bar) (t : OpenTrade) :
    Option OpenTrade × Option Trade × ℚ :=
  if cfg.partialTp then
    if t.phase = .OPEN then
      if stopHit t.direction b t.stop then
        let c := closeTrade i t t.stop .STOP_LOSS
        (none, some c.1, c.2)
      else if tpHit t.direction b t.tp1 then
        let p := partialExit t t.tp1 (3 / 10) .PARTIAL_TP1
        let t2 := { p.1 with stop := breakevenStop p.1 }
        (some (tightenStop cfg b t2), none, p.2)
      else (some (tightenStop cfg b t), none, 0)
    else if t.phase = .PARTIAL_TP1 then
      if stopHit t.direction b t.stop then
        let c := closeTrade i t t.stop (stopReason t)
        (none, some c.1, c.2)
      else if tpHit t.direction b t.tp2 then
        let p := partialExit t t.tp2 (3 / 10) .PARTIAL_TP2
        (some (tightenStop cfg b p.1), none, p.2)
      else (some (tightenStop cfg b t), none, 0)
    else
      if stopHit t.direction b t.stop then
        let c := closeTrade i t t.stop (stopReason t)
        (none, some c.1, c.2)
      else if tpHit t.direction b t.tp3 then
        let c := closeTrade i t t.tp3 .TAKE_PROFIT_3
        (none, some c.1, c.2)
      else (some (tightenStop cfg b t), none, 0)
  else
    if stopHit t.direction b t.stop then
      let c := closeTrade i t t.stop (stopReason t)
      (none, some c.1, c.2)
    else if tpHit t.direction b t.tp3 then
      let c := closeTrade i t t.tp3 .TAKE_PROFIT_3
      (none, some c.1, c.2)
    else (some (tightenStop cfg b t), none, 0)

/-- Simulator state: realized balance, open trades (the single-position
invariant says this list never holds more than one), closed trades, and
the equity curve (one point per processed bar). -/
structure SimState where
  balance : ℚ
  openTrades : List OpenTrade
  trades : List Trade
  equity : List ℚ
deriving DecidableEq, Repr

/-- Mark-to-market unrealized pnl of the open remainder at this bar's
close. -/
def markToMarket (b : Bar) (ts : List OpenTrade) : ℚ :=
  (ts.map fun t =>
    pnlOf t.direction t.entryPrice b.close (t.size * remainingFrac t)).sum

/-- Open a position from a signal: entry at the signal's entry price,
stop and take-profits from the signal's levels. -/
def openFromSignal (i : ℕ) (s : Signal) (size : ℚ) : OpenTrade :=
  ⟨s.direction, i, s.entry, s.sl, s.tp1, s.tp2, s.tp3, size,
   .OPEN, false, 0, 0, 0⟩

/-- Modelled from the spec: one bar of the simulator.  With a trade open,
run the lifecycle step (no new signal is scanned, and no re-entry happens
on the bar a position closed); when flat, invoke the signal generator and
open a position sized by `calculate_position_size` (embedded from
src/utils_module.py).  Every bar appends one equity point: realized
balance plus mark-to-market of the open remainder. -/
def stepBar (cfg : BTConfig) (sig : ℕ → Bar → Option Signal)
    (st : SimState) (i : ℕ) (b : Bar) : SimState :=
  match st.openTrades with
  | t :: _ =>
      let r := stepTrade cfg i b t
      let bal := st.balance + r.2.2
      let opens := match r.1 with
        | some t1 => [t1]
        | none => []
      let trs := match r.2.1 with
        | some tr => st.trades ++ [tr]
        | none => st.trades
      ⟨bal, opens, trs, st.equity ++ [bal + markToMarket b opens]⟩
  | [] =>
      match sig i b with
      | some s =>
          let size :=
            calculate_position_size st.balance cfg.risk_per_trade_pct
              s.entry s.sl
          let nt := openFromSignal i s size
          ⟨st.balance, [nt], st.trades,
           st.equity ++ [st.balance + markToMarket b [nt]]⟩
      | none =>
          ⟨st.balance, [], st.trades, st.equity ++ [st.balance]⟩

/-- The initial simulator state of a run. -/
def initState (cfg : BTConfig) : SimState :=
  ⟨cfg.initial_balance, [], [], []⟩

/-- The simulator state after each bar of the run (index 0 is the
initial state), before end-of-data finalization. -/
def simStates (cfg : BTConfig) (sig : ℕ → Bar → Option Signal)
    (bars : List Bar) : List SimState :=
  (bars.enum).scanl (fun st p => stepBar cfg sig st p.1 p.2) (initState cfg)

/-- Modelled from the spec: any position still open at the final bar
closes at the last close price with reason END_OF_DATA. -/
def finalizeRun (bars : List Bar) (st : SimState) : SimState :=
  match st.openTrades, bars.getLast? with
  | t :: _, some lb =>
      let c := closeTrade (bars.length - 1) t lb.close .END_OF_DATA
      ⟨st.balance + c.2, [], st.trades ++ [c.1], st.equity⟩
  | _, _ => { st with openTrades := [] }

/-- Modelled from the spec: the full backtest run.  A bar sequence
shorter than min_candles returns an empty result immediately — zero
trades and a flat equity curve (one point per bar at the initial
balance) — as a normal outcome; otherwise every bar is replayed through
the state machine and any open position is closed at end of data. -/
def runBacktest (cfg : BTConfig) (sig : ℕ → Bar → Option Signal)
    (bars : List Bar) : SimState :=
  if bars.length < cfg.min_candles then
    ⟨cfg.initial_balance, [], [],
     List.replicate bars.length cfg.initial_balance⟩
  else
    finalizeRun bars
      ((bars.enum).foldl (fun st p => stepBar cfg sig st p.1 p.2)
        (initState cfg))

/- ------------------------------------------------------------------
Metrics calculator (modelled from the spec; the metrics module is not in
the inspected source).
------------------------------------------------------------------ -/

/-- The trades counted as wins: strictly positive pnl. -/
def winningTrades (ts : List Trade) : List Trade :=
  ts.filter fun t => 0 < t.pnl

/-- The trades counted as losses: strictly negative pnl. -/
def losingTrades (ts : List Trade) : List Trade :=
  ts.filter fun t => t.pnl < 0

/-- Modelled from the spec: sum of winning-trade pnl. -/
def winningPnl (ts : List Trade) : ℚ :=
  ((winningTrades ts).map fun t => t.pnl).sum

/-- Modelled from the spec: sum of losing-trade pnl (non-positive). -/
def losingPnl (ts : List Trade) : ℚ :=
  ((losingTrades ts).map fun t => t.pnl).sum

/-- Modelled from the spec: winRate = wins / totalTrades * 100, and 0
when there are no trades. -/
def win_rate (ts : List Trade) : ℚ :=
  if ts.length = 0 then 0
  else ((winningTrades ts).length : ℚ) / (ts.length : ℚ) * 100

/-- Modelled from the spec: profitFactor = sum(winningPnl) /
|sum(losingPnl)|, with an explicit sentinel (none) instead of a division
by zero when the losing pnl sums to zero. -/
def profit_factor (ts : List Trade) : Option ℚ :=
  if losingPnl ts = 0 then none
  else some (winningPnl ts / |losingPnl ts|)

/-- Modelled from the spec: totalReturn = (finalBalance -
initialBalance) / initialBalance * 100. -/
def total_return (finalBalance initialBalance : ℚ) : ℚ :=
  (finalBalance - initialBalance) / initialBalance * 100

/- ------------------------------------------------------------------
Derived notions and concrete instances used by the statements below.
------------------------------------------------------------------ -/

/-- The stop moved in the favorable direction (or kept): for LONG the
new stop is not below the old one, for SHORT not above. -/
def stopTighter (dir : Direction) (oldS newS : ℚ) : Prop :=
  match dir with
  | .LONG => oldS ≤ newS
  | .SHORT => newS ≤ oldS

/-- The default backtest configuration: BACKTEST_CONFIG values and the
DEFAULT_SESSION_STATE flags use_trailing_stop = True, partial_tp = True
of src/config_module.py; trail distance instantiated to 0. -/
def default_cfg : BTConfig :=
  ⟨default_initial_balance, default_risk_per_trade_pct,
   default_min_candles, true, true, 0⟩

/-- Configuration of the spec's concrete scenario: initial_balance
10000, risk_per_trade_pct 2.0, partial take-profits on, trailing-stop
mode off (the scenario's stop stays at breakeven); min_candles set to
the scenario's bar count so the run proceeds (the min_candles cutoff is
settled separately). -/
def cfg1 : BTConfig := ⟨10000, 2, 3, false, true, 0⟩

/-- Signal generator of the concrete scenario: one LONG signal on the
first bar with entry 100 and ATR 2, levels from the scorer. -/
def sig1 : ℕ → Bar → Option Signal :=
  fun i _ => if i = 0 then some (mkSignal .LONG 100 2) else none

/-- Bar sequence of the concrete scenario: the signal bar at 100, one
bar touching tp1 = 103, then one bar reversing to the breakeven stop at
100. -/
def bars1 : List Bar :=
  [⟨100, 100, 100⟩, ⟨103, 100, 102⟩, ⟨101, 100, 100⟩]

/-- The single trade the scenario run produces. -/
def scenarioTrade : Trade :=
  ⟨.LONG, 0, 2, 100, 1009 / 10, 40, 36, .STOP_LOSS⟩

/-- A concrete open LONG trade used to exercise the lifecycle step. -/
def wtrade : OpenTrade :=
  ⟨.LONG, 0, 100, 95, 103, 106, 110, 40, .OPEN, false, 0, 0, 0⟩

end TradingBot

/- ==================================================================
Theorems.
================================================================== -/

namespace TradingBot

set_option maxRecDepth 40000 in
/-- C1: in the concrete scenario (initial_balance 10000,
risk_per_trade_pct 2.0, LONG at entry 100 with ATR 2) the scorer's
levels are sl 95, tp1 103, tp2 106, tp3 110; the position size is 40
units; on a price path touching 103 then reversing to the breakeven
stop at 100 the realized pnl is 0.30*40*3 + 0.70*40*0 = 36, the trade
is recorded as a win, totalReturn is positive and winRate is 100 for
the single-trade run. -/
theorem scenario_long_breakeven_run :
    mkSignal .LONG 100 2 =
      ⟨.LONG, 100, 95, 103, 106, 110⟩
    ∧ calculate_position_size 10000 2 100 95 = 40
    ∧ (runBacktest cfg1 sig1 bars1).trades = [scenarioTrade]
    ∧ (3 / 10 : ℚ) * 40 * (103 - 100) + (7 / 10) * 40 * (100 - 100) = 36
    ∧ 0 < scenarioTrade.pnl
    ∧ (runBacktest cfg1 sig1 bars1).balance - 10036 = 0
    ∧ 0 < total_return (runBacktest cfg1 sig1 bars1).balance 10000
    ∧ win_rate (runBacktest cfg1 sig1 bars1).trades = 100 := by
  refine ⟨?_, ?_, ?_, by norm_num, ?_, ?_, ?_, ?_⟩ <;>
    with_unfolding_all decide

/-- C2: for positive ATR the scorer's price levels are strictly ordered
by direction: LONG has sl < entry < tp1 < tp2 < tp3, SHORT has
sl > entry > tp1 > tp2 > tp3. -/
theorem signal_levels_ordered (entry atr : ℚ) (h : 0 < atr) :
    ((signal_levels .LONG entry atr).sl < entry
      ∧ entry < (signal_levels .LONG entry atr).tp1
      ∧ (signal_levels .LONG entry atr).tp1 < (signal_levels .LONG entry atr).tp2
      ∧ (signal_levels .LONG entry atr).tp2 < (signal_levels .LONG entry atr).tp3)
    ∧ (entry < (signal_levels .SHORT entry atr).sl
      ∧ (signal_levels .SHORT entry atr).tp1 < entry
      ∧ (signal_levels .SHORT entry atr).tp2 < (signal_levels .SHORT entry atr).tp1
      ∧ (signal_levels .SHORT entry atr).tp3 < (signal_levels .SHORT entry atr).tp2) := by
  simp only [signal_levels, atr_multiplier_sl, atr_multiplier_tp1,
    atr_multiplier_tp2, atr_multiplier_tp3]
  refine ⟨⟨?_, ?_, ?_, ?_⟩, ?_, ?_, ?_, ?_⟩ <;> linarith

/-- Witness for C2 at entry 100, ATR 2. -/
theorem signal_levels_ordered_holds :
    (signal_levels .LONG 100 2).sl < 100 :=
  (signal_levels_ordered 100 2 (by norm_num)).1.1

/-- C10: position sizing is total on degenerate input —
`calculate_position_size` returns 0 when the entry equals the stop
instead of dividing by zero, and `safe_divide` returns its default (0 in
the Python signature unless overridden) on every zero denominator. -/
theorem degenerate_division_is_total (balance risk_pct p num dflt : ℚ) :
    calculate_position_size balance risk_pct p p = 0
    ∧ safe_divide num 0 dflt = dflt
    ∧ safe_divide num 0 0 = 0 := by
  refine ⟨?_, ?_, ?_⟩ <;> simp [calculate_position_size, safe_divide]

/-- C5: a LONG signal is emitted exactly when the score reaches
min_score_long, a SHORT exactly when it is at most min_score_short, and
no signal otherwise; the repository defaults are +6 and -6; scorer
construction fails (fast, before any bar is processed) exactly when
min_score_long > 0 > min_score_short is violated. -/
theorem score_thresholds_and_validation (msl mss score : ℤ) :
    (0 < msl → mss < 0 →
      ((signal_direction msl mss score = some .LONG ↔ msl ≤ score)
        ∧ (signal_direction msl mss score = some .SHORT ↔ score ≤ mss)
        ∧ (signal_direction msl mss score = none ↔
            mss < score ∧ score < msl)))
    ∧ (¬ (0 < msl ∧ mss < 0) → mkScorer msl mss = none)
    ∧ ((0 < msl ∧ mss < 0) → (mkScorer msl mss).isSome = true)
    ∧ min_score_long = 6 ∧ min_score_short = -6 := by
  refine ⟨fun h1 h2 => ?_, fun h => ?_, fun h => ?_, rfl, rfl⟩
  · unfold signal_direction
    split_ifs with hl hs <;> (simp_all; try omega)
  · simp [mkScorer, h]
  · simp [mkScorer, h]

/-- Witness for C5 at the default thresholds: score 7 gives LONG, and a
non-positive min_score_long makes construction fail. -/
theorem score_thresholds_and_validation_holds :
    signal_direction 6 (-6) 7 = some Direction.LONG
    ∧ mkScorer 0 (-6) = none := by
  constructor
  · exact ((score_thresholds_and_validation 6 (-6) 7).1 (by decide)
      (by decide)).1.mpr (by decide)
  · exact (score_thresholds_and_validation 0 (-6) 7).2.1 (by decide)

/-- C6: the scorer's confidence lies in the closed interval
[min_confidence, max_confidence] (defaults 50 and 95), and the mapping is
monotone in the absolute score and the category-agreement fraction. -/
theorem confidence_bounds_and_monotone (minC maxC : ℚ) (hle : minC ≤ maxC)
    (s1 s2 : ℕ) (a1 a2 : ℚ) (hs : s1 ≤ s2) (ha : a1 ≤ a2) :
    (minC ≤ confidence_map minC maxC s1 a1
      ∧ confidence_map minC maxC s1 a1 ≤ maxC)
    ∧ confidence_map minC maxC s1 a1 ≤ confidence_map minC maxC s2 a2
    ∧ min_confidence = 50 ∧ max_confidence = 95 := by
  unfold confidence_map clampQ
  refine ⟨⟨le_min hle (le_max_left _ _), min_le_left _ _⟩, ?_, rfl, rfl⟩
  refine min_le_min le_rfl (max_le_max le_rfl ?_)
  have hcast : (s1 : ℚ) ≤ (s2 : ℚ) := by exact_mod_cast hs
  linarith

/-- Witness for C6 at the default bounds. -/
theorem confidence_bounds_and_monotone_holds :
    50 ≤ confidence_map 50 95 3 (1 / 2) :=
  ((confidence_bounds_and_monotone 50 95 (by norm_num) 3 3 (1 / 2) (1 / 2)
    le_rfl le_rfl).1).1

/-- C9: for a fitted two-class model the prediction label is BULLISH
exactly when the predicted class is 1, and the confidence — 100 times
the maximum of a two-class probability vector — lies in [50, 100],
strictly inside the [0, 100] range the spec gives. -/
theorem ml_label_and_confidence_range (cls : ℕ) (p0 p1 : ℚ)
    (h0 : 0 ≤ p0) (h1 : 0 ≤ p1) (hs : p0 + p1 = 1) :
    (predict_label cls = "BULLISH" ↔ cls = 1)
    ∧ 50 ≤ predict_confidence p0 p1
    ∧ predict_confidence p0 p1 ≤ 100 := by
  refine ⟨?_, ?_, ?_⟩
  · by_cases h : cls = 1
    · simp [predict_label, h]
    · simp only [predict_label, if_neg h]
      exact iff_of_false (by decide) h
  · unfold predict_confidence
    rcases le_total p0 p1 with h | h
    · rw [max_eq_right h]; nlinarith
    · rw [max_eq_left h]; nlinarith
  · unfold predict_confidence
    rcases le_total p0 p1 with h | h
    · rw [max_eq_right h]; nlinarith
    · rw [max_eq_left h]; nlinarith

/-- Witness for C9 at class 1 with probabilities (1/4, 3/4). -/
theorem ml_label_and_confidence_range_holds :
    50 ≤ predict_confidence (1 / 4) (3 / 4) :=
  (ml_label_and_confidence_range 1 (1 / 4) (3 / 4) (by norm_num)
    (by norm_num) (by norm_num)).2.1

/-- Helper: a list of negative rationals with a nonempty carrier has a
negative sum. -/
lemma sum_neg_of_all_neg (l : List ℚ) (hall : ∀ x ∈ l, x < 0)
    (hne : l ≠ []) : l.sum < 0 := by
  induction l with
  | nil => exact absurd rfl hne
  | cons x xs ih =>
      have hx : x < 0 := hall x (by simp)
      have hxs : xs.sum ≤ 0 := by
        rcases eq_or_ne xs [] with h | h
        · simp [h]
        · exact le_of_lt (ih (fun y hy => hall y (by simp [hy])) h)
      simp only [List.sum_cons]
      linarith

/-- C4: the losing-trade pnl sums to zero exactly when there is no
losing trade; in that case profitFactor is the explicit sentinel (none)
and no division happens; otherwise it is the winning-pnl sum divided by
the absolute losing-pnl sum. -/
theorem profit_factor_sentinel (ts : List Trade) :
    ((∀ t ∈ ts, 0 ≤ t.pnl) ↔ losingPnl ts = 0)
    ∧ (losingPnl ts = 0 → profit_factor ts = none)
    ∧ (losingPnl ts ≠ 0 →
        profit_factor ts = some (winningPnl ts / |losingPnl ts|)) := by
    refine ⟨?_, fun h => by simp [profit_factor, h],
      fun h => by simp [profit_factor, h]⟩
    constructor
    · intro h
      have hnil : losingTrades ts = [] := by
        simp only [losingTrades, List.filter_eq_nil_iff, decide_eq_true_eq]
        intro t ht
        exact not_lt.mpr (h t ht)
      simp [losingPnl, hnil]
    · intro h
      by_contra hc
      push_neg at hc
      obtain ⟨t, ht, hneg⟩ := hc
      have hmem : t.pnl ∈ (losingTrades ts).map fun u => u.pnl := by
        refine List.mem_map_of_mem _ ?_
        simp [losingTrades, List.mem_filter, ht, hneg]
      have hall : ∀ x ∈ (losingTrades ts).map fun u => u.pnl, x < 0 := by
        intro x hx
        obtain ⟨u, hu, rfl⟩ := List.mem_map.mp hx
        have hu2 := (List.mem_filter.mp hu).2
        simpa using hu2
      have hne : ((losingTrades ts).map fun u => u.pnl) ≠ [] := by
        intro hnil
        rw [hnil] at hmem
        exact absurd hmem (List.not_mem_nil _)
      have hlt := sum_neg_of_all_neg _ hall hne
      exact absurd h (by unfold losingPnl; exact ne_of_lt hlt)

/-- Witness for C4 on a one-trade list with positive pnl: the sentinel
is returned. -/
theorem profit_factor_sentinel_holds :
    profit_factor [⟨.LONG, 0, 1, 100, 103, 40, 5, .TAKE_PROFIT_3⟩] =
      none := by
  refine (profit_factor_sentinel
    [⟨.LONG, 0, 1, 100, 103, 40, 5, .TAKE_PROFIT_3⟩]).2.1 ?_
  with_unfolding_all decide

/-- C7: a bar sequence shorter than min_candles yields an empty result
immediately and normally — no trades, no open position, the initial
balance untouched and a flat equity curve (every point equals the
initial balance). -/
theorem insufficient_data_empty_result (cfg : BTConfig)
    (sig : ℕ → Bar → Option Signal) (bars : List Bar)
    (h : bars.length < cfg.min_candles) :
    (runBacktest cfg sig bars).trades = []
    ∧ (runBacktest cfg sig bars).openTrades = []
    ∧ (runBacktest cfg sig bars).balance = cfg.initial_balance
    ∧ (runBacktest cfg sig bars).equity.length = bars.length
    ∧ ∀ p ∈ (runBacktest cfg sig bars).equity, p = cfg.initial_balance := by
  unfold runBacktest
  rw [if_pos h]
  refine ⟨rfl, rfl, rfl, by simp, ?_⟩
  intro p hp
  exact List.eq_of_mem_replicate hp

/-- Witness for C7: the empty bar list is below the default min_candles
of 200 and produces no trades. -/
theorem insufficient_data_empty_result_holds :
    (runBacktest default_cfg (fun _ _ => none) []).trades = [] :=
  (insufficient_data_empty_result default_cfg (fun _ _ => none) []
    (by decide)).1

/-- Helper: any property preserved by the step function and holding at
the start holds at every entry of a scanl. -/
lemma scanl_all_of_preserved {α β : Type} (f : α → β → α) (P : α → Prop)
    (hf : ∀ a x, P (f a x)) :
    ∀ (l : List β) (b : α), P b → ∀ y ∈ List.scanl f b l, P y := by
  intro l
  induction l with
  | nil =>
      intro b hb y hy
      simp only [List.scanl] at hy
      simp only [List.mem_singleton] at hy
      rwa [hy]
  | cons x xs ih =>
      intro b hb y hy
      simp only [List.scanl] at hy
      rcases List.mem_cons.mp hy with h | h
      · rwa [h]
      · exact ih (f b x) (hf b x) y h

/-- Helper: one simulator bar always leaves at most one open trade. -/
lemma stepBar_open_le_one (cfg : BTConfig) (sig : ℕ → Bar → Option Signal)
    (st : SimState) (i : ℕ) (b : Bar) :
    (stepBar cfg sig st i b).openTrades.length ≤ 1 := by
  unfold stepBar
  rcases hop : st.openTrades with _ | ⟨t, rest⟩
  · rcases hsig : sig i b with _ | s <;> simp
  · rcases hstep : (stepTrade cfg i b t).1 with _ | t1 <;> simp [hstep]

/-- C3: the single-position invariant — at every bar index of every
backtest run the simulator has at most one trade open; it never holds
two trades simultaneously. -/
theorem single_position_invariant (cfg : BTConfig)
    (sig : ℕ → Bar → Option Signal) (bars : List Bar) :
    ∀ st ∈ simStates cfg sig bars, st.openTrades.length ≤ 1 := by
  intro st hst
  unfold simStates at hst
  exact scanl_all_of_preserved _ (fun s => s.openTrades.length ≤ 1)
    (fun a p => stepBar_open_le_one cfg sig a p.1 p.2)
    _ _ (by simp [initState]) st hst

/-- Witness for C3 on the empty run. -/
theorem single_position_invariant_holds :
    (initState default_cfg).openTrades.length ≤ 1 :=
  single_position_invariant default_cfg (fun _ _ => none) []
    (initState default_cfg) (by simp [simStates, initState])

/-- Helper: stopTighter is reflexive. -/
lemma stopTighter_refl (dir : Direction) (x : ℚ) : stopTighter dir x x := by
  cases dir <;> simp [stopTighter]

/-- Helper: stopTighter is transitive along a fixed direction. -/
lemma stopTighter_trans (dir : Direction) {x y z : ℚ}
    (h1 : stopTighter dir x y) (h2 : stopTighter dir y z) :
    stopTighter dir x z := by
  cases dir <;> simp only [stopTighter] at h1 h2 ⊢ <;> linarith

/-- Helper: the trailing-stop recalculation keeps the direction. -/
lemma tightenStop_direction (cfg : BTConfig) (b : Bar) (t : OpenTrade) :
    (tightenStop cfg b t).direction = t.direction := by
  obtain ⟨dir, ei, ep, stp, x1, x2, x3, sz, ph, tr, re, we, cf⟩ := t
  unfold tightenStop
  cases dir <;> split <;> rfl

/-- Helper: the trailing-stop recalculation only ever tightens. -/
lemma tightenStop_tighter (cfg : BTConfig) (b : Bar) (t : OpenTrade) :
    stopTighter t.direction t.stop (tightenStop cfg b t).stop := by
  obtain ⟨dir, ei, ep, stp, x1, x2, x3, sz, ph, tr, re, we, cf⟩ := t
  unfold tightenStop
  cases dir <;> split <;>
    simp [stopTighter, le_max_left, min_le_left]

/-- Helper: before PARTIAL_TP1 the trailing-stop recalculation is the
identity. -/
lemma tightenStop_open_id (cfg : BTConfig) (b : Bar) (t : OpenTrade)
    (h : t.phase = .OPEN) : tightenStop cfg b t = t := by
  unfold tightenStop
  rw [h]
  simp

/-- Helper: a stop already tightened stays tightened after the
end-of-bar trailing recalculation. -/
lemma stop_after_tighten (cfg : BTConfig) (b : Bar) (t t2 : OpenTrade)
    (hs : stopTighter t.direction t.stop t2.stop)
    (hd : t2.direction = t.direction) :
    stopTighter t.direction t.stop (tightenStop cfg b t2).stop := by
  have h2 := tightenStop_tighter cfg b t2
  rw [hd] at h2
  exact stopTighter_trans _ hs h2

/-- Helper: the breakeven ratchet only ever tightens. -/
lemma breakevenStop_tighter (t : OpenTrade) :
    stopTighter t.direction t.stop (breakevenStop t) := by
  obtain ⟨dir, ei, ep, stp, x1, x2, x3, sz, ph, tr, re, we, cf⟩ := t
  unfold breakevenStop
  cases dir <;> simp [stopTighter, le_max_left, min_le_left]

/-- C8: across any lifecycle bar that leaves the trade open, the stop is
only ever moved in the favorable direction (never loosened), and before
PARTIAL_TP1 — while the trade is still OPEN with tp1 untouched — the
trailing recalculation does not move the stop at all; the recalculation
is applied (at most) once, at the end of the bar. -/
theorem trailing_stop_never_loosens (cfg : BTConfig) (i : ℕ) (b : Bar)
    (t t1 : OpenTrade) (h : (stepTrade cfg i b t).1 = some t1) :
    t1.direction = t.direction
    ∧ stopTighter t.direction t.stop t1.stop
    ∧ (t.phase = .OPEN → tpHit t.direction b t.tp1 = false →
        t1.stop = t.stop) := by
  unfold stepTrade at h
  split_ifs at h with hpt hop hs1 htp1 hp1 hs2 htp2 hs3 htp3 hs4 htp4
  all_goals first
    | (simp at h
       done)
    | (simp at h
       subst h
       refine ⟨?_, ?_, ?_⟩
       · exact (tightenStop_direction cfg b _).trans rfl
       · apply stop_after_tighten
         · first
             | exact breakevenStop_tighter
                 (partialExit t t.tp1 (3 / 10) .PARTIAL_TP1).1
             | exact stopTighter_refl _ _
         · rfl
       · intro hph hf
         first
           | exact absurd hph hop
           | (simp [hf] at htp1
              done)
           | rw [tightenStop_open_id cfg b t hph])

/-- Witness for C8: a bar hitting nothing leaves the concrete LONG
trade's stop at 95, a favorable (non-loosening) move. -/
theorem trailing_stop_never_loosens_holds :
    stopTighter Direction.LONG 95 95 :=
  (trailing_stop_never_loosens default_cfg 1 ⟨101, 99, 100⟩ wtrade wtrade
    (by with_unfolding_all decide)).2.1

end TradingBot
